import Mathlib

/-!
Shallow embedding of the apds9960-rs gesture pipeline (src/gesture/decoder.rs,
src/config.rs, src/lib.rs) and proofs of the specification claims.

Machine integers: u8 channel values and register bytes are modelled as Nat
(all arithmetic the source performs on them stays far below any overflow
boundary), i32 arithmetic in the ratio computation is modelled as Int with
Int.tdiv for Rust's truncating division.

The register-read primitives used by decode_gesture (is_gesture_data_valid,
read_gesture_data_level, read_gesture_data) live in the repository's
reading.rs, which is not part of the provided sources; they are modelled
from the spec as an environment oracle (see GestureEnv below).
-/

namespace Apds9960

/-- Gesture direction codes (enum Gesture in decoder.rs). -/
inductive Gesture where
  /-- No gesture detected. -/
  | None
  /-- Swipe up. -/
  | Up
  /-- Swipe down. -/
  | Down
  /-- Swipe left. -/
  | Left
  /-- Swipe right. -/
  | Right
deriving DecidableEq, Repr

/-- Driver error type (enum Error in lib.rs), parametric in the bus error. -/
inductive Error (ε : Type) where
  /-- Bus error wrapping the underlying transport failure. -/
  | I2C (e : ε)
  /-- Invalid rotation value supplied to the gesture decoder. -/
  | InvalidRotation
deriving DecidableEq, Repr

/-- One 4-channel FIFO dataset: chunk bytes (u, d, l, r) in decoder.rs. -/
structure Sample where
  u : Nat
  d : Nat
  l : Nat
  r : Nat
deriving DecidableEq, Repr

/-- Register addresses used by the modelled operations (struct Register in lib.rs). -/
def Register.ENABLE : Nat := 0x80
def Register.CONFIG1 : Nat := 0x8D
def Register.CONFIG2 : Nat := 0x90
def Register.CONFIG3 : Nat := 0x9F
def Register.GCONFIG4 : Nat := 0xAB

/-- Driver state: the cached register bytes and the rotation field of
struct Apds9960 in lib.rs (the i2c handle is replaced by explicit oracles). -/
structure State where
  enable : Nat
  config1 : Nat
  config2 : Nat
  config3 : Nat
  pers : Nat
  gconfig1 : Nat
  gconfig4 : Nat
  rotation : Nat
deriving DecidableEq, Repr

/-- Power-on defaults of Apds9960::new in lib.rs. -/
def State.new : State :=
  { enable := 0, config1 := 0x40, config2 := 1, config3 := 0,
    pers := 0, gconfig1 := 0, gconfig4 := 0, rotation := 0 }

/-- BitFlags::with from lib.rs: OR the mask in when value is true,
AND with the complement (u8 bitwise not, i.e. xor with 255) when false. -/
def withFlag (v mask : Nat) (value : Bool) : Nat :=
  if value then v ||| mask else v &&& (mask ^^^ 255)

/-- The dataset filter condition of decode_gesture (decoder.rs lines 53-59):
a chunk is kept when every channel is at least 30 and it is neither the
all-zero nor the all-255 dataset. -/
def pass_filter (s : Sample) : Bool :=
  30 ≤ s.u && 30 ≤ s.d && 30 ≤ s.l && 30 ≤ s.r &&
    !(s.u = 0 && s.d = 0 && s.l = 0 && s.r = 0) &&
    !(s.u = 255 && s.d = 255 && s.l = 255 && s.r = 255)

/-- The chunk loop of decode_gesture (decoder.rs lines 51-67): feed each
4-byte chunk to the filter; append accepted chunks while fewer than 32
datasets are stored; once a kept chunk finds the buffer full, break. -/
def process_chunks : List Sample → List Sample → List Sample
  | [], datasets => datasets
  | c :: rest, datasets =>
    if pass_filter c then
      if datasets.length < 32 then process_chunks rest (datasets ++ [c])
      else datasets
    else process_chunks rest datasets

/-- chunks_exact(4) over the drained bytes: group into 4-byte datasets,
dropping any incomplete tail. -/
def chunksOf4 : List Nat → List Sample
  | a :: b :: c :: d :: rest => ⟨a, b, c, d⟩ :: chunksOf4 rest
  | _ => []

/-- The ratio formula of decode_gesture (decoder.rs lines 77-82), in i32
arithmetic with Rust's truncating division. -/
def ratio (a b : Nat) : Int :=
  Int.tdiv (((a : Int) - (b : Int)) * 100) ((a : Int) + (b : Int))

/-- The tri-state classification and decision match of decode_gesture
(decoder.rs lines 87-117). -/
def gesture_decision (delta_ud delta_lr : Int) : Gesture :=
  let state_ud : Int := if delta_ud ≥ 30 then 1 else if delta_ud ≤ -30 then -1 else 0
  let state_lr : Int := if delta_lr ≥ 30 then 1 else if delta_lr ≤ -30 then -1 else 0
  match state_ud, state_lr with
  | -1, 0 => Gesture.Up
  | 1, 0 => Gesture.Down
  | 0, -1 => Gesture.Left
  | 0, 1 => Gesture.Right
  | -1, 1 => if delta_ud.natAbs > delta_lr.natAbs then Gesture.Up else Gesture.Right
  | 1, -1 => if delta_ud.natAbs > delta_lr.natAbs then Gesture.Down else Gesture.Left
  | -1, -1 => if delta_ud.natAbs > delta_lr.natAbs then Gesture.Up else Gesture.Left
  | 1, 1 => if delta_ud.natAbs > delta_lr.natAbs then Gesture.Down else Gesture.Right
  | _, _ => Gesture.None

/-- delta_ud as decode_gesture computes it from the first and last datasets. -/
def delta_ud (first last : Sample) : Int :=
  ratio last.u last.d - ratio first.u first.d

/-- delta_lr as decode_gesture computes it from the first and last datasets. -/
def delta_lr (first last : Sample) : Int :=
  ratio last.l last.r - ratio first.l first.r

/-- The direction computation of decode_gesture from the first and last
buffered datasets (decoder.rs lines 74-117). -/
def decode_direction (first last : Sample) : Gesture :=
  let f_r_ud := ratio first.u first.d
  let f_r_lr := ratio first.l first.r
  let l_r_ud := ratio last.u last.d
  let l_r_lr := ratio last.l last.r
  gesture_decision (l_r_ud - f_r_ud) (l_r_lr - f_r_lr)

/-- rotate_gesture from decoder.rs (lines 136-144): cyclic lookup over
[Up, Right, Down, Left], with position's miss falling back to index 0
via unwrap_or(0); the indexing at rotated_idx is within bounds because of
the mod 4, so the getD default is never used. -/
def rotate_gesture (rotation : Nat) (gesture : Gesture) : Gesture :=
  if rotation = 0 then gesture
  else
    let dir_lookup := [Gesture.Up, Gesture.Right, Gesture.Down, Gesture.Left]
    let idx := (dir_lookup.findIdx? (· == gesture)).getD 0
    let rotated_idx := (idx + rotation / 90) % 4
    dir_lookup.getD rotated_idx Gesture.None

/-- set_rotation from decoder.rs (lines 123-129), returning the result
together with the updated driver state. -/
def set_rotation (s : State) (degrees : Nat) : Except (Error Unit) Unit × State :=
  if !([0, 90, 180, 270].contains degrees) then
    (Except.error Error.InvalidRotation, s)
  else
    (Except.ok (), { s with rotation := degrees })

/-- Modelled from the spec: outcome of one register-interface read performed
by the missing reading.rs primitives (read_register / bulk_read may fail with
a bus error). -/
inductive BusRead (α : Type) where
  | ok (a : α)
  | busError
deriving DecidableEq, Repr

/-- Modelled from the spec: outcome of the bulk FIFO read (read_gesture_data
in the missing reading.rs): success, a not-yet-enough-data condition
(nb WouldBlock), or a bus error. -/
inductive FifoReadResult where
  | ok
  | wouldBlock
  | busError
deriving DecidableEq, Repr

/-- Modelled from the spec: what the device reports on one iteration of the
FIFO drain loop: the gesture-data-valid flag (GSTATUS.GVALID), the FIFO fill
level (GFLVL, a count of 4-byte datasets), and the bytes the bulk FIFO read
delivers when it succeeds. -/
structure FifoStep where
  valid : BusRead Bool
  level : BusRead Nat
  read : FifoReadResult
  data : List Nat
deriving DecidableEq, Repr

/-- Modelled from the spec: the device-side behaviour seen by one
decode_gesture invocation: the result of the initial gesture-data-valid
check, then one FifoStep per drain-loop iteration (a finite interaction;
an exhausted step list behaves like the valid flag reading false). -/
structure GestureEnv where
  initialValid : BusRead Bool
  steps : List FifoStep
deriving DecidableEq, Repr

/-- Record of one bulk FIFO read issued by the drain loop: the fill level
just read and the byte count requested from read_gesture_data. -/
structure FifoRead where
  level : Nat
  byteCount : Nat
deriving DecidableEq, Repr

/-- Outcome of the drain loop: normal exit with the stored datasets, or a
bus error that aborts decode_gesture. -/
inductive LoopExit where
  | done (datasets : List Sample)
  | busErr
deriving DecidableEq, Repr

/-- The FIFO drain loop of decode_gesture (decoder.rs lines 34-68): re-check
the valid flag, read the fill level, request min(buffer.len() = 128,
4 * level) bytes, and feed the 4-byte chunks through the filter into the
dataset buffer. Also returns the log of FIFO reads issued. -/
def drain : List FifoStep → List Sample → LoopExit × List FifoRead
  | [], datasets => (LoopExit.done datasets, [])
  | step :: rest, datasets =>
    match step.valid with
    | BusRead.busError => (LoopExit.busErr, [])
    | BusRead.ok false => (LoopExit.done datasets, [])
    | BusRead.ok true =>
      match step.level with
      | BusRead.busError => (LoopExit.busErr, [])
      | BusRead.ok 0 => (LoopExit.done datasets, [])
      | BusRead.ok l =>
        let byteCount := min 128 (4 * l)
        match step.read with
        | FifoReadResult.busError => (LoopExit.busErr, [⟨l, byteCount⟩])
        | FifoReadResult.wouldBlock => (LoopExit.done datasets, [⟨l, byteCount⟩])
        | FifoReadResult.ok =>
          let datasets := process_chunks (chunksOf4 (step.data.take byteCount)) datasets
          let res := drain rest datasets
          (res.1, ⟨l, byteCount⟩ :: res.2)

/-- Result of decode_gesture: nb::Result<Gesture, Error<E>> with the bus
error abstracted to the fact that one occurred. -/
inductive DecodeResult where
  | ok (g : Gesture)
  | wouldBlock
  | busError
deriving DecidableEq, Repr

/-- decode_gesture from decoder.rs (lines 25-120): initial valid check, FIFO
drain, then the direction decision over the first and last stored datasets
and the rotation remap. Returns the result, the (unchanged) driver state and
the log of FIFO reads issued. -/
def decode_gesture (s : State) (env : GestureEnv) :
    DecodeResult × State × List FifoRead :=
  match env.initialValid with
  | BusRead.busError => (DecodeResult.busError, s, [])
  | BusRead.ok false => (DecodeResult.wouldBlock, s, [])
  | BusRead.ok true =>
    match drain env.steps [] with
    | (LoopExit.busErr, reads) => (DecodeResult.busError, s, reads)
    | (LoopExit.done datasets, reads) =>
      if datasets.length < 2 then (DecodeResult.ok Gesture.None, s, reads)
      else
        let first := datasets.headD ⟨0, 0, 0, 0⟩
        let last := datasets.getLastD ⟨0, 0, 0, 0⟩
        (DecodeResult.ok (rotate_gesture s.rotation (decode_direction first last)),
          s, reads)

/-- config_register / write_register reduced to the bus outcome: the i2c
write of [address, value] either succeeds or fails with a bus error. The
record of the attempted write is returned for the theorems. -/
structure WriteRecord where
  address : Nat
  value : Nat
deriving DecidableEq, Repr

/-- set_flag_enable from config.rs (impl_set_flag_reg applied to the enable
cache field): compute the new value with BitFlags::with, attempt the
hardware write, and commit the cache only on success. -/
def set_flag_enable (s : State) (flag : Nat) (value : Bool)
    (bus : Except Unit Unit) : Except (Error Unit) Unit × State × List WriteRecord :=
  let new := withFlag s.enable flag value
  match bus with
  | Except.ok _ => (Except.ok (), { s with enable := new }, [⟨Register.ENABLE, new⟩])
  | Except.error e => (Except.error (Error.I2C e), s, [⟨Register.ENABLE, new⟩])

/-- set_flag_config1 from config.rs (impl_set_flag_reg on config1). -/
def set_flag_config1 (s : State) (flag : Nat) (value : Bool)
    (bus : Except Unit Unit) : Except (Error Unit) Unit × State × List WriteRecord :=
  let new := withFlag s.config1 flag value
  match bus with
  | Except.ok _ => (Except.ok (), { s with config1 := new }, [⟨Register.CONFIG1, new⟩])
  | Except.error e => (Except.error (Error.I2C e), s, [⟨Register.CONFIG1, new⟩])

/-- set_flag_config2 from config.rs (impl_set_flag_reg on config2). -/
def set_flag_config2 (s : State) (flag : Nat) (value : Bool)
    (bus : Except Unit Unit) : Except (Error Unit) Unit × State × List WriteRecord :=
  let new := withFlag s.config2 flag value
  match bus with
  | Except.ok _ => (Except.ok (), { s with config2 := new }, [⟨Register.CONFIG2, new⟩])
  | Except.error e => (Except.error (Error.I2C e), s, [⟨Register.CONFIG2, new⟩])

/-- set_flag_config3 from config.rs (impl_set_flag_reg on config3). -/
def set_flag_config3 (s : State) (flag : Nat) (value : Bool)
    (bus : Except Unit Unit) : Except (Error Unit) Unit × State × List WriteRecord :=
  let new := withFlag s.config3 flag value
  match bus with
  | Except.ok _ => (Except.ok (), { s with config3 := new }, [⟨Register.CONFIG3, new⟩])
  | Except.error e => (Except.error (Error.I2C e), s, [⟨Register.CONFIG3, new⟩])

/-- set_flag_gconfig4 from config.rs (impl_set_flag_reg on gconfig4). -/
def set_flag_gconfig4 (s : State) (flag : Nat) (value : Bool)
    (bus : Except Unit Unit) : Except (Error Unit) Unit × State × List WriteRecord :=
  let new := withFlag s.gconfig4 flag value
  match bus with
  | Except.ok _ => (Except.ok (), { s with gconfig4 := new }, [⟨Register.GCONFIG4, new⟩])
  | Except.error e => (Except.error (Error.I2C e), s, [⟨Register.GCONFIG4, new⟩])

/-- Selector for the five cached registers targeted by impl_set_flag_reg. -/
inductive FlagReg where
  | enable
  | config1
  | config2
  | config3
  | gconfig4
deriving DecidableEq, Repr

/-- Dispatch to the five set-flag operations of config.rs. -/
def runSetFlag (r : FlagReg) (s : State) (flag : Nat) (value : Bool)
    (bus : Except Unit Unit) : Except (Error Unit) Unit × State × List WriteRecord :=
  match r with
  | FlagReg.enable => set_flag_enable s flag value bus
  | FlagReg.config1 => set_flag_config1 s flag value bus
  | FlagReg.config2 => set_flag_config2 s flag value bus
  | FlagReg.config3 => set_flag_config3 s flag value bus
  | FlagReg.gconfig4 => set_flag_gconfig4 s flag value bus

/-- The cached byte a given set-flag operation reads. -/
def cacheField (r : FlagReg) (s : State) : Nat :=
  match r with
  | FlagReg.enable => s.enable
  | FlagReg.config1 => s.config1
  | FlagReg.config2 => s.config2
  | FlagReg.config3 => s.config3
  | FlagReg.gconfig4 => s.gconfig4

/-- The hardware register address a given set-flag operation writes. -/
def regAddress (r : FlagReg) : Nat :=
  match r with
  | FlagReg.enable => Register.ENABLE
  | FlagReg.config1 => Register.CONFIG1
  | FlagReg.config2 => Register.CONFIG2
  | FlagReg.config3 => Register.CONFIG3
  | FlagReg.gconfig4 => Register.GCONFIG4

/-- Replace the cached byte a given set-flag operation targets. -/
def updField (r : FlagReg) (s : State) (v : Nat) : State :=
  match r with
  | FlagReg.enable => { s with enable := v }
  | FlagReg.config1 => { s with config1 := v }
  | FlagReg.config2 => { s with config2 := v }
  | FlagReg.config3 => { s with config3 := v }
  | FlagReg.gconfig4 => { s with gconfig4 := v }

/-- Spec-side definition following the spec's words (section 4.4): tri-state
classification of a delta, +1 when the delta is at least 30, -1 when it is
at most -30, 0 otherwise. -/
def spec_state (delta : Int) : Int :=
  if delta ≥ 30 then 1 else if delta ≤ -30 then -1 else 0

/-- Spec-side definition following the spec's words (section 4.4): the fixed
decision table over the tri-state pair, with the four diagonal pairs broken
by comparing the absolute deltas, the up/down axis winning exactly when its
delta is strictly larger in magnitude. -/
def spec_decision (dud dlr : Int) : Gesture :=
  let sud := spec_state dud
  let slr := spec_state dlr
  if sud = 0 ∧ slr = 0 then Gesture.None
  else if sud = -1 ∧ slr = 0 then Gesture.Up
  else if sud = 1 ∧ slr = 0 then Gesture.Down
  else if sud = 0 ∧ slr = -1 then Gesture.Left
  else if sud = 0 ∧ slr = 1 then Gesture.Right
  else if dud.natAbs > dlr.natAbs then
    (if sud = -1 then Gesture.Up else Gesture.Down)
  else
    (if slr = -1 then Gesture.Left else Gesture.Right)

/-- Drain scenario of C4: the device reports 40 datasets (160 bytes of clean
channel value 100) on the first iteration, then the valid flag drops. -/
def envC4 : GestureEnv :=
  ⟨BusRead.ok true,
   [⟨BusRead.ok true, BusRead.ok 40, FifoReadResult.ok, List.replicate 160 100⟩,
    ⟨BusRead.ok false, BusRead.ok 0, FifoReadResult.ok, []⟩]⟩

/-- First drain iteration of the C5 scenario: 10 clean datasets. -/
def stepC5a : FifoStep :=
  ⟨BusRead.ok true, BusRead.ok 10, FifoReadResult.ok, List.replicate 40 100⟩

/-- Second drain iteration of the C5 scenario: a reported level of 32. -/
def stepC5b : FifoStep :=
  ⟨BusRead.ok true, BusRead.ok 32, FifoReadResult.ok, List.replicate 128 100⟩

/-- Final drain iteration used by the scenarios: the valid flag reads false. -/
def stepEnd : FifoStep :=
  ⟨BusRead.ok false, BusRead.ok 0, FifoReadResult.ok, []⟩

/-- The source's decision match agrees with the spec's decision table on
every pair of deltas. -/
theorem gesture_decision_eq_spec (dud dlr : Int) :
    gesture_decision dud dlr = spec_decision dud dlr := by
  unfold gesture_decision spec_decision spec_state
  by_cases h1 : dud ≥ 30 <;> by_cases h1' : dud ≤ -30 <;>
    by_cases h2 : dlr ≥ 30 <;> by_cases h2' : dlr ≤ -30 <;>
    first
      | omega
      | (by_cases habs : dud.natAbs > dlr.natAbs <;> simp [h1, h1', h2, h2', habs])

/-- Closed form of the chunk loop: the accepted chunks are appended to the
buffer in arrival order, truncated at the remaining capacity out of 32. -/
theorem process_chunks_eq (chunks datasets : List Sample) :
    process_chunks chunks datasets =
      datasets ++ (chunks.filter pass_filter).take (32 - datasets.length) := by
  induction chunks generalizing datasets with
  | nil => simp [process_chunks]
  | cons c rest ih =>
    rw [process_chunks]
    by_cases hc : pass_filter c
    · rw [if_pos hc]
      by_cases hlen : datasets.length < 32
      · rw [if_pos hlen, ih, List.filter_cons_of_pos hc]
        have h32 : 32 - datasets.length = (32 - (datasets.length + 1)) + 1 := by omega
        rw [h32, List.take_succ_cons]
        simp
      · rw [if_neg hlen, List.filter_cons_of_pos hc]
        have h32 : 32 - datasets.length = 0 := by omega
        rw [h32, List.take_zero, List.append_nil]
    · rw [if_neg hc, ih, List.filter_cons_of_neg hc]

/-- The chunk loop never grows the buffer past 32 datasets. -/
theorem process_chunks_length_le (chunks datasets : List Sample)
    (h : datasets.length ≤ 32) : (process_chunks chunks datasets).length ≤ 32 := by
  rw [process_chunks_eq]
  simp only [List.length_append, List.length_take]
  omega

/-- The drain loop never grows the buffer past 32 datasets. -/
theorem drain_datasets_le (steps : List FifoStep) :
    ∀ datasets : List Sample, datasets.length ≤ 32 →
      ∀ ds, (drain steps datasets).1 = LoopExit.done ds → ds.length ≤ 32 := by
  induction steps with
  | nil =>
    intro datasets h ds h'
    simp only [drain, LoopExit.done.injEq] at h'
    exact h' ▸ h
  | cons step rest ih =>
    intro datasets h ds h'
    rcases step with ⟨v, lv, rd, data⟩
    rcases v with b | _
    · rcases b with _ | _
      · simp only [drain, LoopExit.done.injEq] at h'
        exact h' ▸ h
      · rcases lv with l | _
        · rcases l with _ | l
          · simp only [drain, LoopExit.done.injEq] at h'
            exact h' ▸ h
          · rcases rd with _ | _ | _
            · simp only [drain] at h'
              exact ih _ (process_chunks_length_le _ _ h) ds h'
            · simp only [drain, LoopExit.done.injEq] at h'
              exact h' ▸ h
            · simp [drain] at h'
        · simp [drain] at h'
    · simp [drain] at h'

/-- Every bulk FIFO read issued by the drain loop requests
min 128 (4 * level) bytes, where level is the fill level just read. -/
theorem drain_reads_byteCount (steps : List FifoStep) :
    ∀ datasets : List Sample, ∀ rec ∈ (drain steps datasets).2,
      rec.byteCount = min 128 (4 * rec.level) := by
  induction steps with
  | nil =>
    intro datasets rec h
    simp [drain] at h
  | cons step rest ih =>
    intro datasets rec h
    rcases step with ⟨v, lv, rd, data⟩
    rcases v with b | _
    · rcases b with _ | _
      · simp only [drain, List.not_mem_nil] at h
      · rcases lv with l | _
        · rcases l with _ | l
          · simp only [drain, List.not_mem_nil] at h
          · rcases rd with _ | _ | _
            · simp only [drain, List.mem_cons] at h
              rcases h with h | h
              · subst h
                rfl
              · exact ih _ rec h
            · simp only [drain, List.mem_singleton] at h
              subst h
              rfl
            · simp only [drain, List.mem_singleton] at h
              subst h
              rfl
        · simp only [drain, List.not_mem_nil] at h
    · simp only [drain, List.not_mem_nil] at h

/-- C1: for every pair of first/last filtered datasets, the deltas computed
by decode_gesture are classified into the tri-states +1 (delta at least 30),
-1 (delta at most -30), 0 (otherwise), and the tri-state pair is mapped to a
direction exactly per the spec's decision table, with the up/down-axis
result winning on the diagonals exactly when its delta's magnitude is
strictly larger. -/
theorem claim_C1 (first last : Sample) :
    decode_direction first last =
      spec_decision (delta_ud first last) (delta_lr first last) := by
  unfold decode_direction delta_ud delta_lr
  exact gesture_decision_eq_spec _ _

/-- C2: the dataset filter of decode_gesture rejects a raw sample exactly
when some channel is below 30, or all four channels are 0, or all four are
255; the all-30 sample is accepted; and the chunk loop appends the accepted
samples to the buffer in arrival order (truncated at remaining capacity). -/
theorem claim_C2 :
    (∀ u d l r : Nat, pass_filter ⟨u, d, l, r⟩ = false ↔
        (u < 30 ∨ d < 30 ∨ l < 30 ∨ r < 30 ∨ (u = 0 ∧ d = 0 ∧ l = 0 ∧ r = 0) ∨
          (u = 255 ∧ d = 255 ∧ l = 255 ∧ r = 255))) ∧
    pass_filter ⟨30, 30, 30, 30⟩ = true ∧
    (∀ chunks datasets : List Sample,
      process_chunks chunks datasets =
        datasets ++ (chunks.filter pass_filter).take (32 - datasets.length)) := by
  refine ⟨?_, by decide, process_chunks_eq⟩
  intro u d l r
  simp [pass_filter]
  omega

/-- C2 witness: the filter characterisation applied at the concrete sample
with up-channel 29. -/
theorem claim_C2_witness : pass_filter ⟨29, 30, 30, 30⟩ = false :=
  (claim_C2.1 29 30 30 30).2 (Or.inl (by decide))

/-- C3 (code bug witness): rotate_gesture does not keep Gesture.None fixed;
the unwrap_or(0) fallback makes a nonzero rotation send None to a real
direction (rotation 90 yields Right), while the claim and the enum's own
documentation require None to map to itself for every configured rotation. -/
theorem claim_C3 :
    rotate_gesture 0 Gesture.None = Gesture.None ∧
    rotate_gesture 90 Gesture.None = Gesture.Right ∧
    rotate_gesture 180 Gesture.None = Gesture.Down ∧
    rotate_gesture 270 Gesture.None = Gesture.Left := by decide

/-- C4: the drain loop stores at most 32 datasets for every environment, and
in the spec's scenario (FIFO level 40 against capacity 32) it stops at 32
stored datasets, drops the excess bytes, and decode_gesture reports no
error. -/
theorem claim_C4 :
    (∀ (steps : List FifoStep) (ds : List Sample),
        (drain steps []).1 = LoopExit.done ds → ds.length ≤ 32) ∧
    (drain envC4.steps []).1 =
        LoopExit.done (List.replicate 32 ⟨100, 100, 100, 100⟩) ∧
    (drain envC4.steps []).2 = [⟨40, 128⟩] ∧
    decode_gesture State.new envC4 =
      (DecodeResult.ok Gesture.None, State.new, [⟨40, 128⟩]) := by
  refine ⟨fun steps ds h => drain_datasets_le steps [] (by decide) ds h, ?_, ?_, ?_⟩ <;>
    decide

/-- C4 witness: the general bound applied to the concrete scenario drain. -/
theorem claim_C4_witness :
    (List.replicate 32 (⟨100, 100, 100, 100⟩ : Sample)).length ≤ 32 :=
  claim_C4.1 envC4.steps _ claim_C4.2.1

/-- C5 (amended): on every iteration of the drain loop the byte count
requested from the bulk FIFO read equals min(total buffer size of 128 bytes,
4 x level) — the full byte buffer size, independent of the datasets already
stored in this invocation. -/
theorem claim_C5 (s : State) (env : GestureEnv) :
    ∀ rec ∈ (decode_gesture s env).2.2, rec.byteCount = min 128 (4 * rec.level) := by
  intro rec h
  unfold decode_gesture at h
  rcases env with ⟨iv, steps⟩
  rcases iv with b | _
  · rcases b with _ | _
    · simp at h
    · rcases hd : drain steps [] with ⟨ex, reads⟩
      rcases ex with ds | _ <;>
        · simp only [hd] at h
          refine drain_reads_byteCount steps [] rec ?_
          rw [hd]
          first
            | exact h
            | (rcases Nat.lt_or_ge ds.length 2 with h2 | h2
               · simp only [if_pos h2] at h
                 exact h
               · simp only [if_neg (Nat.not_lt.mpr h2)] at h
                 exact h)
  · simp at h

/-- C5 witness: the amended byte-count law applied to the concrete scenario
environment of C4. -/
theorem claim_C5_witness : (⟨40, 128⟩ : FifoRead).byteCount = min 128 (4 * 40) :=
  claim_C5 State.new envC4 ⟨40, 128⟩ (by decide)

/-- C5 counterexample: after the first drain iteration 10 datasets are
stored, so the claim's formula for the second read would give
min (4 * (32 - 10)) (4 * 32) = 88 bytes, but the code requests 128. -/
theorem claim_C5_cex :
    (drain [stepC5a] []).1 = LoopExit.done (List.replicate 10 ⟨100, 100, 100, 100⟩) ∧
    (drain [stepC5a, stepC5b, stepEnd] []).2 = [⟨10, 40⟩, ⟨32, 128⟩] ∧
    min (4 * (32 - 10)) (4 * 32) = 88 ∧ (88 : Nat) ≠ 128 := by decide

/-- C6: when the gesture-data-valid flag reads false on the first check,
decode_gesture returns the not-ready result (nb WouldBlock), issues no FIFO
read, and returns the driver state (rotation and cached registers)
unchanged. -/
theorem claim_C6 (s : State) (steps : List FifoStep) :
    decode_gesture s ⟨BusRead.ok false, steps⟩ = (DecodeResult.wouldBlock, s, []) := rfl

/-- Bitwise reading of BitFlags::with: setting ORs the mask bit in, clearing
ANDs with the complement of the mask within the 8-bit register width. -/
theorem withFlag_testBit (c f : Nat) (value : Bool) (i : Nat) (hc : c < 256) :
    (withFlag c f value).testBit i =
      (if value then c.testBit i || f.testBit i
       else c.testBit i && !(f.testBit i)) := by
  unfold withFlag
  cases value with
  | true =>
    simp [Nat.testBit_lor]
  | false =>
    simp only [if_neg (by simp : ¬ False = True), Bool.false_eq_true, if_false]
    rw [Nat.testBit_land, Nat.testBit_xor]
    by_cases hi : i < 8
    · have h255 : (255 : Nat).testBit i = true := by
        have h : (255 : Nat) = 2 ^ 8 - 1 := by norm_num
        rw [h, Nat.testBit_two_pow_sub_one]
        simpa using hi
      rw [h255]
      cases f.testBit i <;> cases c.testBit i <;> rfl
    · have h8 : (256 : Nat) ≤ 2 ^ i := by
        calc (256 : Nat) = 2 ^ 8 := by norm_num
        _ ≤ 2 ^ i := Nat.pow_le_pow_right (by norm_num) (by omega)
      have hcb : c.testBit i = false := Nat.testBit_eq_false_of_lt (lt_of_lt_of_le hc h8)
      rw [hcb]
      rfl

/-- C7: every set-flag operation on a cached register writes the value
obtained from the cached byte by ORing the mask in (boolean true) or ANDing
with the mask's 8-bit complement (boolean false) to its register address,
and commits that value to the cache field exactly when the bus write
succeeds; on a bus error it returns the I2C error and leaves the state
untouched. -/
theorem claim_C7 (r : FlagReg) (s : State) (flag : Nat) (value : Bool)
    (bus : Except Unit Unit) (hc : cacheField r s < 256) :
    (runSetFlag r s flag value bus).2.2 =
        [⟨regAddress r, withFlag (cacheField r s) flag value⟩] ∧
    (∀ i : Nat, (withFlag (cacheField r s) flag value).testBit i =
        (if value then (cacheField r s).testBit i || flag.testBit i
         else (cacheField r s).testBit i && !(flag.testBit i))) ∧
    (bus = Except.ok () →
        (runSetFlag r s flag value bus).1 = Except.ok () ∧
        (runSetFlag r s flag value bus).2.1 =
          updField r s (withFlag (cacheField r s) flag value)) ∧
    (∀ e, bus = Except.error e →
        (runSetFlag r s flag value bus).1 = Except.error (Error.I2C e) ∧
        (runSetFlag r s flag value bus).2.1 = s) := by
  refine ⟨?_, fun i => withFlag_testBit _ _ _ i hc, ?_, ?_⟩
  · cases r <;> cases bus <;> rfl
  · intro h
    subst h
    cases r <;> exact ⟨rfl, rfl⟩
  · intro e h
    subst h
    cases r <;> exact ⟨rfl, rfl⟩

/-- C7 witness: setting the PON bit in the enable register from the power-on
state with a successful bus write records the expected hardware write and
commits the cache. -/
theorem claim_C7_witness :
    (runSetFlag FlagReg.enable State.new 1 true (Except.ok ())).2.2 =
      [⟨Register.ENABLE, withFlag (cacheField FlagReg.enable State.new) 1 true⟩] ∧
    (runSetFlag FlagReg.enable State.new 1 true (Except.ok ())).2.1 =
      updField FlagReg.enable State.new
        (withFlag (cacheField FlagReg.enable State.new) 1 true) :=
  ⟨(claim_C7 FlagReg.enable State.new 1 true (Except.ok ()) (by decide)).1,
   ((claim_C7 FlagReg.enable State.new 1 true (Except.ok ()) (by decide)).2.2.1 rfl).2⟩

/-- C8: set_rotation rejects every degree value outside {0, 90, 180, 270}
with InvalidRotation and leaves the stored rotation unchanged, and accepts
every value in that set by storing it exactly. -/
theorem claim_C8 (s : State) (d : Nat) :
    (¬ (d = 0 ∨ d = 90 ∨ d = 180 ∨ d = 270) →
        set_rotation s d = (Except.error Error.InvalidRotation, s)) ∧
    ((d = 0 ∨ d = 90 ∨ d = 180 ∨ d = 270) →
        set_rotation s d = (Except.ok (), { s with rotation := d })) := by
  constructor
  · intro h
    unfold set_rotation
    rw [if_pos]
    have hc : ([0, 90, 180, 270].contains d) = false := by
      simp
      tauto
    rw [hc]
    rfl
  · intro h
    unfold set_rotation
    rw [if_neg]
    have hc : ([0, 90, 180, 270].contains d) = true := by
      simp
      tauto
    rw [hc]
    simp

/-- C8 witness: set_rotation at 45 fails with InvalidRotation leaving the
state untouched, and at 90 succeeds storing 90. -/
theorem claim_C8_witness :
    set_rotation State.new 45 = (Except.error Error.InvalidRotation, State.new) ∧
    set_rotation State.new 90 = (Except.ok (), { State.new with rotation := 90 }) :=
  ⟨(claim_C8 State.new 45).1 (by decide), (claim_C8 State.new 90).2 (by decide)⟩

/-- C9: every sample accepted by the dataset filter has both channel pairs
summing to at least 60, so the signed divisions of the ratio computation
have nonzero denominators; and every sample the chunk loop stores (starting
from the empty buffer) was accepted by the filter. -/
theorem claim_C9 (smp : Sample) (chunks : List Sample) :
    (pass_filter smp = true →
        60 ≤ smp.u + smp.d ∧ 60 ≤ smp.l + smp.r ∧
        ((smp.u : Int) + (smp.d : Int)) ≠ 0 ∧ ((smp.l : Int) + (smp.r : Int)) ≠ 0) ∧
    (smp ∈ process_chunks chunks [] → pass_filter smp = true) := by
  constructor
  · intro h
    simp [pass_filter] at h
    omega
  · intro h
    rw [process_chunks_eq] at h
    simp only [List.nil_append, List.length_nil, Nat.sub_zero] at h
    exact (List.mem_filter.1 (List.take_subset _ _ h)).2

/-- C9 witness: the denominator bounds at the concrete all-30 sample, which
the filter accepts. -/
theorem claim_C9_witness :
    60 ≤ (⟨30, 30, 30, 30⟩ : Sample).u + (⟨30, 30, 30, 30⟩ : Sample).d :=
  ((claim_C9 ⟨30, 30, 30, 30⟩ []).1 (by decide)).1

/-- C10: for rotations in {0, 90, 180, 270} and directions other than None,
rotating twice equals rotating once by the sum of the rotations mod 360. -/
theorem claim_C10 (r1 r2 : Nat) (g : Gesture)
    (h1 : r1 = 0 ∨ r1 = 90 ∨ r1 = 180 ∨ r1 = 270)
    (h2 : r2 = 0 ∨ r2 = 90 ∨ r2 = 180 ∨ r2 = 270)
    (hg : g ≠ Gesture.None) :
    rotate_gesture r2 (rotate_gesture r1 g) = rotate_gesture ((r1 + r2) % 360) g := by
  rcases h1 with h | h | h | h <;> rcases h2 with h' | h' | h' | h' <;>
    subst h <;> subst h' <;> cases g <;>
    first
      | exact absurd rfl hg
      | decide

/-- C10 witness: two quarter turns of Up equal a half turn of Up. -/
theorem claim_C10_witness :
    rotate_gesture 90 (rotate_gesture 90 Gesture.Up) =
      rotate_gesture ((90 + 90) % 360) Gesture.Up :=
  claim_C10 90 90 Gesture.Up (by decide) (by decide) (by decide)

end Apds9960
